import Mathlib

/-!
Verification development for the maws streaming HTML extraction engine.

The definitions below are a shallow embedding of `src/maws/parser.py`
(classes `ProductHTMLParser` and `DetailedProductParser`, and the module
function `extract_total_products`) together with the variant
`extract_total_products` from `experimental/app.py`.  Python strings are
Lean `String`s, Python `int` depth counters are Lean `Int`, Python dicts
with insertion order are association lists, `None` is `Option.none`, and
a Python exception is modelled by an `Option`-returning step function.
-/

namespace Maws

/-- Whether the character list `n` occurs as a contiguous sublist of `h`;
models the Python `in` operator on strings. -/
def listContainsSub : List Char → List Char → Bool
  | [], n => n.isEmpty
  | c :: t, n => n.isPrefixOf (c :: t) || listContainsSub t n

/-- Models Python `needle in hay` for strings. -/
def strContains (hay needle : String) : Bool :=
  listContainsSub hay.data needle.data

/-- Models Python `s.startswith(p)`. -/
def strStarts (s p : String) : Bool :=
  p.data.isPrefixOf s.data

/-- Models Python `s.strip()`: removes leading and trailing whitespace. -/
def pyStrip (s : String) : String :=
  ⟨((s.data.dropWhile Char.isWhitespace).reverse.dropWhile Char.isWhitespace).reverse⟩

/-- Models Python `s.lower()` (ASCII case folding, which is all the
source needs for its `"in stock"` test). -/
def pyLower (s : String) : String :=
  ⟨s.data.map Char.toLower⟩

/-- Models Python `" ".join(xs)`. -/
def pyJoin (xs : List String) : String :=
  ⟨List.intercalate [' '] (xs.map String.data)⟩

/-- Numeric value of a decimal digit string. -/
def digitsToNat (ds : List Char) : Nat :=
  ds.foldl (fun a c => a * 10 + (c.toNat - 48)) 0

/-- Models Python `int(s)` on a string: optional surrounding whitespace,
optional sign, then decimal digits; anything else raises, modelled as
`none` (underscore digit separators are not modelled). -/
def pyInt? (s : String) : Option Int :=
  match (pyStrip s).data with
  | [] => none
  | '+' :: ds =>
    if ds.isEmpty then none
    else if ds.all Char.isDigit then some (Int.ofNat (digitsToNat ds)) else none
  | '-' :: ds =>
    if ds.isEmpty then none
    else if ds.all Char.isDigit then some (-(Int.ofNat (digitsToNat ds))) else none
  | ds =>
    if ds.all Char.isDigit then some (Int.ofNat (digitsToNat ds)) else none

/-- Truthiness of a Python `Optional[str]`: `None` and `""` are falsy. -/
def optStrTruthy : Option String → Bool
  | none => false
  | some v => v ≠ ""

/-- One event of the tokenizer stream feeding the extractors:
`handle_starttag`, `handle_data`, `handle_endtag`. -/
inductive Event where
  | start (tag : String) (attrs : List (String × String))
  | text (data : String)
  | endTag (tag : String)
deriving DecidableEq, Repr

/-- Models Python `dict(attrs).get(k)`: with duplicate keys the later
binding wins, absence gives `none`. -/
def getAttr (attrs : List (String × String)) (k : String) : Option String :=
  attrs.foldl (fun acc p => if p.1 = k then some p.2 else acc) none

/-- Models Python `dict(attrs).get(k, d)`. -/
def getAttrD (attrs : List (String × String)) (k d : String) : String :=
  (getAttr attrs k).getD d

/-- A value stored in a record dict: Python `None`, an `int`, or a `str`. -/
inductive PValue where
  | null
  | int (n : Int)
  | str (s : String)
deriving DecidableEq, Repr

/-- A Python dict with insertion order, as an association list. -/
abbrev PDict := List (String × PValue)

/-- Models Python `d[k] = v` on a dict: overwrite in place if the key
exists, otherwise append. -/
def pydictSet {α : Type} (d : List (String × α)) (k : String) (v : α) :
    List (String × α) :=
  if d.any (fun p => p.1 = k) then
    d.map (fun p => if p.1 = k then (k, v) else p)
  else d ++ [(k, v)]

/-- Models Python `d.get(k)` on a dict. -/
def pydictGet {α : Type} (d : List (String × α)) (k : String) : Option α :=
  (d.find? (fun p => p.1 = k)).map (fun p => p.2)

/-- State of `ProductHTMLParser` (the Listing Extractor). -/
structure LState where
  products : List PDict
  in_target_ol : Bool
  ol_depth : Int
  in_product_div : Bool
  product_div_depth : Int
  current_product : PDict
  capture_field : Option String
  text_buffer : List String
deriving DecidableEq, Repr

/-- Initial state of `ProductHTMLParser.__init__`. -/
def initL : LState :=
  { products := [], in_target_ol := false, ol_depth := 0,
    in_product_div := false, product_div_depth := 0,
    current_product := [], capture_field := none, text_buffer := [] }

/-- The field-capture `if`/`elif` chain at the end of
`ProductHTMLParser.handle_starttag`. -/
def l_capture_chain (s : LState) (tag : String)
    (attrs : List (String × String)) : LState :=
  if tag = "a" ∧ getAttr attrs "class" = some "product-item-link" then
    { s with capture_field := some "name" }
  else if tag = "div" ∧ getAttr attrs "class" = some "product-item-brand" then
    { s with capture_field := some "brand" }
  else if tag = "span" ∧ getAttr attrs "itemprop" = some "sku" then
    { s with capture_field := some "sku" }
  else if tag = "div" ∧ getAttr attrs "class" = some "product-item-unit" then
    { s with capture_field := some "contents" }
  else if tag = "span" ∧ getAttr attrs "class" = some "price initialized-price" then
    { s with capture_field := some "price" }
  else if tag = "span" ∧ getAttr attrs "class" = some "next-tier initialized-price" then
    { s with capture_field := some "tier_price" }
  else if tag = "span" ∧ getAttr attrs "class" = some "best_before" then
    { s with capture_field := some "best_before" }
  else if tag = "div" ∧ strStarts (getAttrD attrs "class" "") "stock" then
    { s with capture_field := some "stock_status" }
  else s

/-- The dict value stored for a URL attribute: the attribute string, or
Python `None` when the attribute is absent. -/
def optAttrVal : Option String → PValue
  | none => PValue.null
  | some v => PValue.str v

/-- Models `int(product_id) if product_id else 0` applied to
`attrs.get("data-product-id")`; `none` is a raised `ValueError`. -/
def pyIntField : Option String → Option Int
  | none => some 0
  | some v => if v = "" then some 0 else pyInt? v

/-- `ProductHTMLParser.handle_starttag`.  Returns `none` when the Python
code would raise (non-numeric non-empty `data-product-id`). -/
def l_handle_starttag (s : LState) (tag : String)
    (attrs : List (String × String)) : Option LState :=
  if tag = "ol" ∧ getAttr attrs "class" = some "products list items product-items" then
    some { s with in_target_ol := true, ol_depth := 1 }
  else
    let s1 := if s.in_target_ol ∧ tag = "ol" then
        { s with ol_depth := s.ol_depth + 1 } else s
    if s1.in_target_ol ∧ tag = "div" ∧ getAttr attrs "class" = some "product-item-info" then
      match pyIntField (getAttr attrs "data-product-id") with
      | none => none
      | some pid =>
        some { s1 with
          in_product_div := true
          product_div_depth := 1
          current_product :=
            [("product_id", PValue.int pid), ("price", PValue.null),
             ("tier_price", PValue.null), ("best_before", PValue.null),
             ("stock_status", PValue.null)] }
    else
      let s2 := if s1.in_product_div ∧ tag = "div" then
          { s1 with product_div_depth := s1.product_div_depth + 1 } else s1
      if s2.in_product_div = false then some s2
      else
        let s3 := if tag = "a" ∧ strContains (getAttrD attrs "class" "") "product-item-photo" then
            { s2 with current_product :=
                pydictSet s2.current_product "product_url" (optAttrVal (getAttr attrs "href")) }
          else s2
        let s4 := if tag = "img" ∧ strContains (getAttrD attrs "class" "") "product-image-photo" then
            { s3 with current_product :=
                pydictSet s3.current_product "image_url" (optAttrVal (getAttr attrs "src")) }
          else s3
        some (l_capture_chain s4 tag attrs)

/-- `ProductHTMLParser.handle_data`. -/
def l_handle_data (s : LState) (data : String) : LState :=
  match s.capture_field with
  | some _ =>
    let stripped := pyStrip data
    if stripped ≠ "" then { s with text_buffer := s.text_buffer ++ [stripped] } else s
  | none => s

/-- First block of `ProductHTMLParser.handle_endtag`: flush a pending
capture into the current record. -/
def l_end_flush (s : LState) : LState :=
  match s.capture_field with
  | some f =>
    let value := pyStrip (pyJoin s.text_buffer)
    let cp := if value ≠ "" then pydictSet s.current_product f (PValue.str value)
      else s.current_product
    { s with current_product := cp, text_buffer := [], capture_field := none }
  | none => s

/-- Second block of `ProductHTMLParser.handle_endtag`: item frame depth
bookkeeping and record emission. -/
def l_end_div (s : LState) (tag : String) : LState :=
  if s.in_product_div ∧ tag = "div" then
    let d := s.product_div_depth - 1
    if d = 0 then
      { s with
        product_div_depth := d
        products := s.products ++ [s.current_product]
        current_product := []
        in_product_div := false }
    else { s with product_div_depth := d }
  else s

/-- Third block of `ProductHTMLParser.handle_endtag`: container frame
depth bookkeeping. -/
def l_end_ol (s : LState) (tag : String) : LState :=
  if s.in_target_ol ∧ tag = "ol" then
    let d := s.ol_depth - 1
    if d = 0 then { s with ol_depth := d, in_target_ol := false }
    else { s with ol_depth := d }
  else s

/-- `ProductHTMLParser.handle_endtag`: the three blocks in source order. -/
def l_handle_endtag (s : LState) (tag : String) : LState :=
  l_end_ol (l_end_div (l_end_flush s) tag) tag

/-- One tokenizer event dispatched to the Listing Extractor handlers. -/
def lstep (s : LState) : Event → Option LState
  | .start t a => l_handle_starttag s t a
  | .text d => some (l_handle_data s d)
  | .endTag t => some (l_handle_endtag s t)

/-- Feed a whole event stream to the Listing Extractor. -/
def lrun (s : LState) : List Event → Option LState
  | [] => some s
  | e :: t =>
    match lstep s e with
    | some s1 => lrun s1 t
    | none => none

/-- Try to match the regular expression `Products\s*\((\d+)\)` at the
head of the character list, returning the captured integer. -/
def tryMatch (s : List Char) : Option Nat :=
  match dropLit "Products".data s with
  | none => none
  | some r =>
    match r.dropWhile Char.isWhitespace with
    | '(' :: r3 =>
      let ds := r3.takeWhile Char.isDigit
      if ds.isEmpty then none
      else
        match r3.dropWhile Char.isDigit with
        | ')' :: _ => some (digitsToNat ds)
        | _ => none
    | _ => none
where
  /-- Drop an exact literal from the head of a list, or fail. -/
  dropLit : List Char → List Char → Option (List Char)
    | [], s => some s
    | _ :: _, [] => none
    | c :: cs, d :: ds => if c = d then dropLit cs ds else none

/-- Leftmost search for `Products\s*\((\d+)\)`, as `re.search` performs it. -/
def regexSearch : List Char → Option Nat
  | [] => tryMatch []
  | c :: t =>
    match tryMatch (c :: t) with
    | some n => some n
    | none => regexSearch t

/-- `ProductHTMLParser.extract_total_products` from `parser.py`: falls
back to the constant 4343 when the pattern is absent. -/
def extract_total_products (html : String) : Nat :=
  match regexSearch html.data with
  | some n => n
  | none => 4343

/-- `extract_total_products` from `experimental/app.py`: raises
(`none`) when the pattern is absent. -/
def extract_total_products_app (html : String) : Option Nat :=
  regexSearch html.data

/-- `DetailedProductParser.MIN_TIER_PRICE_CELLS`. -/
def MIN_TIER_PRICE_CELLS : Int := 3

/-- `DetailedProductParser.TIER_QUANTITY_INDEX`. -/
def TIER_QUANTITY_INDEX : Int := 3

/-- `DetailedProductParser.TIER_PRICE_PIECE_INDEX`. -/
def TIER_PRICE_PIECE_INDEX : Int := 4

/-- `DetailedProductParser.TIER_PRICE_BOX_INDEX`. -/
def TIER_PRICE_BOX_INDEX : Int := 5

/-- One price tier dict appended by `_end_tier_price`. -/
structure Tier where
  quantity : String
  price_per_piece : String
  price_per_box : String
deriving DecidableEq, Repr

/-- State of `DetailedProductParser` (the Detail Extractor). -/
structure DState where
  categories : List String
  description : Option String
  stock_available : Option Bool
  price_tiers : List Tier
  specifications : List (String × String)
  in_breadcrumbs : Bool
  breadcrumb_depth : Int
  capture_breadcrumb_name : Bool
  breadcrumb_buffer : List String
  in_description : Bool
  description_depth : Int
  description_buffer : List String
  in_stock_status : Bool
  stock_buffer : List String
  in_tier_price_table : Bool
  in_tier_price_row : Bool
  tier_cell_index : Int
  tier_quantity : Option String
  tier_price_piece : Option String
  tier_price_box : Option String
  tier_price_current_cell_skip : Bool
  in_specifications : Bool
  spec_depth : Int
  in_spec_dl : Bool
  current_spec_label : Option String
  spec_label_buffer : List String
  spec_value_buffer : List String
deriving DecidableEq, Repr

/-- Initial state of `DetailedProductParser.__init__`. -/
def initD : DState :=
  { categories := [], description := none, stock_available := none,
    price_tiers := [], specifications := [],
    in_breadcrumbs := false, breadcrumb_depth := 0,
    capture_breadcrumb_name := false, breadcrumb_buffer := [],
    in_description := false, description_depth := 0, description_buffer := [],
    in_stock_status := false, stock_buffer := [],
    in_tier_price_table := false, in_tier_price_row := false,
    tier_cell_index := 0, tier_quantity := none, tier_price_piece := none,
    tier_price_box := none, tier_price_current_cell_skip := false,
    in_specifications := false, spec_depth := 0, in_spec_dl := false,
    current_spec_label := none, spec_label_buffer := [], spec_value_buffer := [] }

/-- `DetailedProductParser._start_breadcrumb`. -/
def d_start_breadcrumb (s : DState) (tag : String)
    (attrs : List (String × String)) : DState :=
  if tag = "div" ∧ getAttr attrs "class" = some "breadcrumbs" then
    { s with in_breadcrumbs := true, breadcrumb_depth := 1 }
  else if tag = "span" ∧ getAttr attrs "itemprop" = some "name" then
    { s with capture_breadcrumb_name := true }
  else if tag = "ul" ∨ tag = "li" then
    { s with breadcrumb_depth := s.breadcrumb_depth + 1 }
  else s

/-- `DetailedProductParser._start_description`. -/
def d_start_description (s : DState) (tag : String) : DState :=
  if tag = "div" then
    if s.in_description = false then
      { s with in_description := true, description_depth := 1 }
    else { s with description_depth := s.description_depth + 1 }
  else if tag = "ul" ∨ tag = "li" then
    { s with description_depth := s.description_depth + 1 }
  else s

/-- `DetailedProductParser._start_tier_price`. -/
def d_start_tier_price (s : DState) (tag : String)
    (attrs : List (String × String)) : DState :=
  if tag = "table" ∧ getAttr attrs "id" = some "tier-price-table" then
    { s with in_tier_price_table := true }
  else if tag = "tr" then
    { s with
      in_tier_price_row := true
      tier_cell_index := 0
      tier_quantity := none
      tier_price_piece := none
      tier_price_box := none }
  else if tag = "td" ∧ s.in_tier_price_row then
    let td_class := getAttrD attrs "class" ""
    let skip := strContains td_class "hidden" || strContains td_class "icon" ||
      strContains td_class "action"
    { s with tier_cell_index := s.tier_cell_index + 1, tier_price_current_cell_skip := skip }
  else s

/-- `DetailedProductParser._start_specifications`. -/
def d_start_specifications (s : DState) (tag : String)
    (attrs : List (String × String)) : DState :=
  if tag = "div" then
    if strContains (getAttrD attrs "class" "") "product-specifications-wrapper" then
      { s with in_specifications := true, spec_depth := 1 }
    else { s with spec_depth := s.spec_depth + 1 }
  else if tag = "dl" then { s with in_spec_dl := true }
  else if tag = "dt" then { s with spec_label_buffer := [] }
  else if tag = "dd" then { s with spec_value_buffer := [] }
  else s

/-- `DetailedProductParser.handle_starttag`. -/
def d_handle_starttag (s : DState) (tag : String)
    (attrs : List (String × String)) : DState :=
  if s.in_breadcrumbs then d_start_breadcrumb s tag attrs
  else if tag = "div" ∧ getAttr attrs "class" = some "breadcrumbs" then
    d_start_breadcrumb s tag attrs
  else if s.in_description ∨ (tag = "div" ∧ getAttr attrs "class" = some "product-description-wrapper") then
    if tag = "div" ∧ getAttr attrs "class" = some "product-description-wrapper" then
      { s with in_description := true, description_depth := 1 }
    else if s.in_description then d_start_description s tag
    else s
  else if tag = "div" ∧ strStarts (getAttrD attrs "class" "") "stock" then
    { s with in_stock_status := true }
  else if s.in_tier_price_table ∨ (tag = "table" ∧ getAttr attrs "id" = some "tier-price-table") then
    d_start_tier_price s tag attrs
  else if s.in_specifications ∨ strContains (getAttrD attrs "class" "") "product-specifications-wrapper" then
    d_start_specifications s tag attrs
  else s

/-- First `if` block of `DetailedProductParser.handle_data`: breadcrumb
name capture. -/
def dhd_breadcrumb (s : DState) (stripped : String) : DState :=
  if s.capture_breadcrumb_name ∧ stripped ≠ "" then
    { s with breadcrumb_buffer := s.breadcrumb_buffer ++ [stripped] }
  else s

/-- Second `if` block of `DetailedProductParser.handle_data`:
description capture. -/
def dhd_description (s : DState) (stripped : String) : DState :=
  if s.in_description ∧ stripped ≠ "" then
    { s with description_buffer := s.description_buffer ++ [stripped] }
  else s

/-- Third `if` block of `DetailedProductParser.handle_data`: stock text
capture. -/
def dhd_stock (s : DState) (stripped : String) : DState :=
  if s.in_stock_status ∧ stripped ≠ "" then
    { s with stock_buffer := s.stock_buffer ++ [stripped] }
  else s

/-- Fourth `if` block of `DetailedProductParser.handle_data`: tier-price
cell capture at the fixed cell indices. -/
def dhd_tier (s : DState) (stripped : String) : DState :=
  if s.in_tier_price_row ∧ s.in_tier_price_table ∧ stripped ≠ "" ∧
      s.tier_price_current_cell_skip = false then
    if s.tier_cell_index = TIER_QUANTITY_INDEX ∧ s.tier_quantity = none then
      { s with tier_quantity := some stripped }
    else if s.tier_cell_index = TIER_PRICE_PIECE_INDEX ∧ s.tier_price_piece = none then
      { s with tier_price_piece := some stripped }
    else if s.tier_cell_index = TIER_PRICE_BOX_INDEX ∧ s.tier_price_box = none then
      { s with tier_price_box := some stripped }
    else s
  else s

/-- Fifth `if` block of `DetailedProductParser.handle_data`:
specification label/value capture. -/
def dhd_spec (s : DState) (stripped : String) : DState :=
  if s.in_spec_dl ∧ stripped ≠ "" then
    match s.current_spec_label with
    | none => { s with spec_label_buffer := s.spec_label_buffer ++ [stripped] }
    | some _ => { s with spec_value_buffer := s.spec_value_buffer ++ [stripped] }
  else s

/-- `DetailedProductParser.handle_data`: the five independent `if`
blocks applied in source order to the stripped text. -/
def d_handle_data (s : DState) (data : String) : DState :=
  let stripped := pyStrip data
  dhd_spec (dhd_tier (dhd_stock (dhd_description (dhd_breadcrumb s stripped) stripped) stripped) stripped) stripped

/-- `DetailedProductParser._end_breadcrumb`. -/
def d_end_breadcrumb (s : DState) (tag : String) : DState :=
  if tag = "span" ∧ s.capture_breadcrumb_name then
    let breadcrumb_name := pyStrip (pyJoin s.breadcrumb_buffer)
    let s1 : DState :=
      if breadcrumb_name ≠ "" ∧ breadcrumb_name ≠ "Home" ∧ breadcrumb_name ≠ "Products" then
        { s with categories := s.categories ++ [breadcrumb_name] }
      else s
    { s1 with breadcrumb_buffer := [], capture_breadcrumb_name := false }
  else if tag = "li" ∨ tag = "ul" then
    { s with breadcrumb_depth := s.breadcrumb_depth - 1 }
  else if tag = "div" ∧ s.breadcrumb_depth = 1 then
    { s with in_breadcrumbs := false }
  else s

/-- `DetailedProductParser._end_description`. -/
def d_end_description (s : DState) (tag : String) : DState :=
  if tag = "li" then
    let desc_item := pyStrip (pyJoin s.description_buffer)
    let s1 : DState :=
      if desc_item ≠ "" then
        let newdesc : String :=
          match s.description with
          | none => desc_item
          | some d => d ++ " | " ++ desc_item
        { s with description := some newdesc }
      else s
    { s1 with description_buffer := [], description_depth := s1.description_depth - 1 }
  else if tag = "ul" then
    { s with description_depth := s.description_depth - 1 }
  else if tag = "div" ∧ s.description_depth = 1 then
    { s with in_description := false }
  else s

/-- `DetailedProductParser._end_tier_price`. -/
def d_end_tier_price (s : DState) (tag : String) : DState :=
  if tag = "td" ∧ s.in_tier_price_row then
    { s with tier_price_current_cell_skip := false }
  else if tag = "tr" ∧ s.in_tier_price_row then
    let s1 : DState :=
      if optStrTruthy s.tier_quantity ∧ optStrTruthy s.tier_price_piece ∧
          optStrTruthy s.tier_price_box then
        { s with price_tiers := s.price_tiers ++
            [{ quantity := s.tier_quantity.getD ""
               price_per_piece := s.tier_price_piece.getD ""
               price_per_box := s.tier_price_box.getD "" }] }
      else s
    { s1 with in_tier_price_row := false, tier_cell_index := 0 }
  else if tag = "table" then { s with in_tier_price_table := false }
  else s

/-- `DetailedProductParser._end_specifications`. -/
def d_end_specifications (s : DState) (tag : String) : DState :=
  if tag = "dt" then
    if s.spec_label_buffer ≠ [] then
      { s with current_spec_label := some (pyStrip (pyJoin s.spec_label_buffer)) }
    else s
  else if tag = "dd" then
    let s1 : DState :=
      if optStrTruthy s.current_spec_label ∧ s.spec_value_buffer ≠ [] then
        let value := pyStrip (pyJoin s.spec_value_buffer)
        let specs := pydictSet s.specifications (s.current_spec_label.getD "") value
        { s with specifications := specs, current_spec_label := none }
      else s
    { s1 with spec_value_buffer := [] }
  else if tag = "dl" then
    { s with in_spec_dl := false, current_spec_label := none }
  else if tag = "div" then
    let d := s.spec_depth - 1
    if d = 0 then { s with spec_depth := d, in_specifications := false }
    else { s with spec_depth := d }
  else s

/-- `DetailedProductParser.handle_endtag`. -/
def d_handle_endtag (s : DState) (tag : String) : DState :=
  if s.in_breadcrumbs then d_end_breadcrumb s tag
  else if s.in_description then d_end_description s tag
  else if s.in_stock_status then
    if tag = "div" ∧ s.stock_buffer ≠ [] then
      let status_text := pyLower (pyStrip (pyJoin s.stock_buffer))
      { s with
        stock_available := some (strContains status_text "in stock")
        stock_buffer := []
        in_stock_status := false }
    else s
  else if s.in_tier_price_table then d_end_tier_price s tag
  else if s.in_specifications then d_end_specifications s tag
  else s

/-- One tokenizer event dispatched to the Detail Extractor handlers. -/
def dstep (s : DState) : Event → DState
  | .start t a => d_handle_starttag s t a
  | .text d => d_handle_data s d
  | .endTag t => d_handle_endtag s t

/-- Feed a whole event stream to the Detail Extractor. -/
def drun (s : DState) : List Event → DState
  | [] => s
  | e :: t => drun (dstep s e) t

/-- Result record of `DetailedProductParser.get_product_data`. -/
structure DetailRecord where
  categories : Option (List String)
  description : Option String
  stock_available : Option Bool
  price_tiers : Option (List Tier)
  specifications : Option (List (String × String))
deriving DecidableEq, Repr

/-- `DetailedProductParser.get_product_data`: empty collections are
returned as Python `None`. -/
def get_product_data (s : DState) : DetailRecord :=
  { categories := if s.categories = [] then none else some s.categories
    description := s.description
    stock_available := s.stock_available
    price_tiers := if s.price_tiers = [] then none else some s.price_tiers
    specifications := if s.specifications = [] then none else some s.specifications }

/-- Whether an event is a start tag matching the listing container
trigger: an `ol` whose class is exactly `products list items product-items`. -/
def isContainerStart : Event → Bool
  | .start t a => t = "ol" ∧ getAttr a "class" = some "products list items product-items"
  | _ => false

/-- Whether the next event closes the currently open item frame: a `div`
end tag while the item frame is open at depth 1. -/
def isItemClose (s : LState) : Event → Bool
  | .endTag t => t = "div" ∧ s.in_product_div ∧ s.product_div_depth = 1
  | _ => false

/-- Number of item-frame closures along a run of the Listing Extractor
from state `s` (stopping if a step raises). -/
def lclosures (s : LState) : List Event → Nat
  | [] => 0
  | e :: t =>
    (if isItemClose s e then 1 else 0) +
      (match lstep s e with
       | some s1 => lclosures s1 t
       | none => 0)

/-- Spec-side notion (from the spec's words): an event stream is
well-formed when start and end tags are properly balanced and nested. -/
def wfAux : List String → List Event → Bool
  | stk, [] => stk.isEmpty
  | stk, .start t _ :: rest => wfAux (t :: stk) rest
  | stk, .text _ :: rest => wfAux stk rest
  | stk, .endTag t :: rest =>
    match stk with
    | [] => false
    | top :: stk1 => top = t && wfAux stk1 rest

/-- Spec-side notion (from the spec's words): well-formed (balanced)
event stream. -/
def wellFormedEvents (evs : List Event) : Bool := wfAux [] evs

/-- Spec-side notion (from the spec's words): the number of item-container
start tags (`div` with class exactly `product-item-info`) in a stream; in
a balanced stream this is the number of item-container open/close pairs. -/
def countItemOpens (evs : List Event) : Nat :=
  evs.countP (fun e =>
    match e with
    | .start t a => t = "div" ∧ getAttr a "class" = some "product-item-info"
    | _ => false)

/-- Start tag of the listing container used by the demonstrations. -/
def olStart : Event := .start "ol" [("class", "products list items product-items")]

/-- Start tag of a product item container with the given identifier text. -/
def itemTag (id : String) : Event :=
  .start "div" [("class", "product-item-info"), ("data-product-id", id)]

/-- Two consecutive matching list containers, one product each. -/
def twoListsEvs : List Event :=
  [olStart, itemTag "1", .endTag "div", .endTag "ol",
   olStart, itemTag "2", .endTag "div", .endTag "ol"]

/-- The first matching list container alone. -/
def oneListEvs : List Event :=
  [olStart, itemTag "1", .endTag "div", .endTag "ol"]

/-- An item container whose identifier attribute is not numeric. -/
def badIdEvs : List Event :=
  [olStart, .start "div" [("class", "product-item-info"), ("data-product-id", "abc")]]

/-- A listing with one item whose name is captured normally. -/
def c8baseEvs : List Event :=
  [olStart, itemTag "7", .start "a" [("class", "product-item-link")], .text "Widget",
   .endTag "a", .endTag "div", .endTag "ol"]

/-- The same listing with a balanced non-matching `div` wrapper pair
inserted between the capture-opening tag and its text. -/
def c8modEvs : List Event :=
  [olStart, itemTag "7", .start "a" [("class", "product-item-link")],
   .start "div" [], .endTag "div", .text "Widget",
   .endTag "a", .endTag "div", .endTag "ol"]

/-- The balanced empty wrapper pair of non-matching `div` tags. -/
def wrapPair : List Event := [.start "div" [], .endTag "div"]

/-- A balanced stream with one item container nested inside another. -/
def nestedItemsEvs : List Event :=
  [olStart, itemTag "1", itemTag "2", .endTag "div", .endTag "div", .endTag "ol"]

/-- Stray `li` end tags directly after the breadcrumb container opens. -/
def strayEndEvs : List Event :=
  [.start "div" [("class", "breadcrumbs")], .endTag "li", .endTag "li"]

/-- A stock region holding no text at all. -/
def stockEmptyEvs : List Event :=
  [.start "div" [("class", "stock available")], .endTag "div"]

/-- A stock region holding the text `In Stock`. -/
def stockInEvs : List Event :=
  [.start "div" [("class", "stock available")], .text "In Stock", .endTag "div"]

/-- A stock region holding the text `Out of Stock`. -/
def stockOutEvs : List Event :=
  [.start "div" [("class", "stock unavailable")], .text "Out of Stock", .endTag "div"]

/-- One breadcrumb entry: a list item holding a named span. -/
def crumb (nm : String) : List Event :=
  [.start "li" [], .start "span" [("itemprop", "name")], .text nm,
   .endTag "span", .endTag "li"]

/-- The breadcrumb trail Home, Products, Snacks, Crackers. -/
def trailEvs : List Event :=
  [.start "div" [("class", "breadcrumbs")], .start "ul" []] ++
    crumb "Home" ++ crumb "Products" ++ crumb "Snacks" ++ crumb "Crackers" ++
    [.endTag "ul", .endTag "div"]

/-- Invariant of the Detail Extractor tying the specification depth
counter to its region flag. -/
def SpecDepthInv (s : DState) : Prop :=
  (s.in_specifications = true → 1 ≤ s.spec_depth) ∧
    (s.in_specifications = false → s.spec_depth = 0)

/-- Invariant of the Listing Extractor: an open item frame has positive
depth. -/
def ItemDepthInv (s : LState) : Prop :=
  s.in_product_div = true → 1 ≤ s.product_div_depth

/-- A Detail Extractor state inside the breadcrumb region with a pending
captured name. -/
def bcDemoState : DState :=
  { initD with
    in_breadcrumbs := true
    capture_breadcrumb_name := true
    breadcrumb_buffer := ["Snacks"] }

/-- A Detail Extractor state inside an open stock region holding text. -/
def stockDemoState : DState :=
  { initD with in_stock_status := true, stock_buffer := ["In Stock"] }

/-- A Detail Extractor state inside an open tier-price row at the
quantity cell index. -/
def tierDemoState : DState :=
  { initD with
    in_tier_price_table := true
    in_tier_price_row := true
    tier_cell_index := 3
    tier_quantity := some "10"
    tier_price_piece := some "1.50"
    tier_price_box := some "12.00" }

/-- A Listing Extractor state with the container frame open. -/
def listDemoState : LState := { initL with in_target_ol := true, ol_depth := 1 }

/-- A Listing Extractor state with container and item frames open. -/
def itemOpenDemoState : LState :=
  { initL with
    in_target_ol := true
    ol_depth := 1
    in_product_div := true
    product_div_depth := 1 }

theorem inv_of_pres {s s' : DState}
    (hf : s'.in_specifications = s.in_specifications)
    (hd : s'.spec_depth = s.spec_depth) (h : SpecDepthInv s) :
    SpecDepthInv s' := by
  obtain ⟨h1, h2⟩ := h
  constructor <;> intro hI <;> rw [hd]
  · exact h1 (hf ▸ hI)
  · exact h2 (hf ▸ hI)

theorem sb_spec_pres (s : DState) (t : String) (a : List (String × String)) :
    (d_start_breadcrumb s t a).in_specifications = s.in_specifications ∧
      (d_start_breadcrumb s t a).spec_depth = s.spec_depth := by
  unfold d_start_breadcrumb; try dsimp only
  constructor <;> (repeat' split) <;> rfl

theorem sd_spec_pres (s : DState) (t : String) :
    (d_start_description s t).in_specifications = s.in_specifications ∧
      (d_start_description s t).spec_depth = s.spec_depth := by
  unfold d_start_description; try dsimp only
  constructor <;> (repeat' split) <;> rfl

theorem stp_spec_pres (s : DState) (t : String) (a : List (String × String)) :
    (d_start_tier_price s t a).in_specifications = s.in_specifications ∧
      (d_start_tier_price s t a).spec_depth = s.spec_depth := by
  unfold d_start_tier_price; try dsimp only
  constructor <;> (repeat' split) <;> rfl

theorem eb_spec_pres (s : DState) (t : String) :
    (d_end_breadcrumb s t).in_specifications = s.in_specifications ∧
      (d_end_breadcrumb s t).spec_depth = s.spec_depth := by
  unfold d_end_breadcrumb; try dsimp only
  constructor <;> (repeat' split) <;> rfl

theorem ed_spec_pres (s : DState) (t : String) :
    (d_end_description s t).in_specifications = s.in_specifications ∧
      (d_end_description s t).spec_depth = s.spec_depth := by
  unfold d_end_description; try dsimp only
  constructor <;> (repeat' split) <;> rfl

theorem etp_spec_pres (s : DState) (t : String) :
    (d_end_tier_price s t).in_specifications = s.in_specifications ∧
      (d_end_tier_price s t).spec_depth = s.spec_depth := by
  unfold d_end_tier_price; try dsimp only
  constructor <;> (repeat' split) <;> rfl

theorem dhdb_pres (s : DState) (st : String) :
    (dhd_breadcrumb s st).in_specifications = s.in_specifications ∧
      (dhd_breadcrumb s st).spec_depth = s.spec_depth := by
  unfold dhd_breadcrumb; constructor <;> (repeat' split) <;> rfl

theorem dhdd_pres (s : DState) (st : String) :
    (dhd_description s st).in_specifications = s.in_specifications ∧
      (dhd_description s st).spec_depth = s.spec_depth := by
  unfold dhd_description; constructor <;> (repeat' split) <;> rfl

theorem dhds_pres (s : DState) (st : String) :
    (dhd_stock s st).in_specifications = s.in_specifications ∧
      (dhd_stock s st).spec_depth = s.spec_depth := by
  unfold dhd_stock; constructor <;> (repeat' split) <;> rfl

theorem dhdt_pres (s : DState) (st : String) :
    (dhd_tier s st).in_specifications = s.in_specifications ∧
      (dhd_tier s st).spec_depth = s.spec_depth := by
  unfold dhd_tier; constructor <;> (repeat' split) <;> rfl

theorem dhdsp_pres (s : DState) (st : String) :
    (dhd_spec s st).in_specifications = s.in_specifications ∧
      (dhd_spec s st).spec_depth = s.spec_depth := by
  unfold dhd_spec; constructor <;> (repeat' split) <;> rfl

theorem dhd_spec_pres (s : DState) (d : String) :
    (d_handle_data s d).in_specifications = s.in_specifications ∧
      (d_handle_data s d).spec_depth = s.spec_depth := by
  unfold d_handle_data
  dsimp only
  constructor
  · rw [(dhdsp_pres _ _).1, (dhdt_pres _ _).1, (dhds_pres _ _).1,
      (dhdd_pres _ _).1, (dhdb_pres _ _).1]
  · rw [(dhdsp_pres _ _).2, (dhdt_pres _ _).2, (dhds_pres _ _).2,
      (dhdd_pres _ _).2, (dhdb_pres _ _).2]

theorem ss_inv (s : DState) (t : String) (a : List (String × String))
    (h : SpecDepthInv s)
    (hdis : s.in_specifications = true ∨
      strContains (getAttrD a "class" "") "product-specifications-wrapper" = true) :
    SpecDepthInv (d_start_specifications s t a) := by
  obtain ⟨h1, h2⟩ := h
  unfold d_start_specifications
  split_ifs <;> constructor <;> intro hI <;> simp_all <;> omega

theorem es_inv (s : DState) (t : String) (h : SpecDepthInv s)
    (hin : s.in_specifications = true) : SpecDepthInv (d_end_specifications s t) := by
  obtain ⟨h1, h2⟩ := h
  have hd := h1 hin
  unfold d_end_specifications
  dsimp only
  split_ifs <;> constructor <;> intro hI <;> simp_all <;> omega

theorem specInv_dstep (s : DState) (e : Event) (h : SpecDepthInv s) :
    SpecDepthInv (dstep s e) := by
  cases e with
  | start t a =>
    show SpecDepthInv (d_handle_starttag s t a)
    unfold d_handle_starttag
    split_ifs with hA hB hC hD hE hF hG hH
    · exact inv_of_pres (sb_spec_pres s t a).1 (sb_spec_pres s t a).2 h
    · exact inv_of_pres (sb_spec_pres s t a).1 (sb_spec_pres s t a).2 h
    · exact inv_of_pres rfl rfl h
    · exact inv_of_pres (sd_spec_pres s t).1 (sd_spec_pres s t).2 h
    · exact h
    · exact inv_of_pres rfl rfl h
    · exact inv_of_pres (stp_spec_pres s t a).1 (stp_spec_pres s t a).2 h
    · exact ss_inv s t a h hH
    · exact h
  | text d =>
    exact inv_of_pres (dhd_spec_pres s d).1 (dhd_spec_pres s d).2 h
  | endTag t =>
    show SpecDepthInv (d_handle_endtag s t)
    unfold d_handle_endtag
    split_ifs with hA hB hC hD hE hF
    · exact inv_of_pres (eb_spec_pres s t).1 (eb_spec_pres s t).2 h
    · exact inv_of_pres (ed_spec_pres s t).1 (ed_spec_pres s t).2 h
    · exact inv_of_pres rfl rfl h
    · exact h
    · exact inv_of_pres (etp_spec_pres s t).1 (etp_spec_pres s t).2 h
    · exact es_inv s t h hF
    · exact h

theorem specInv_drun (s : DState) (evs : List Event) (h : SpecDepthInv s) :
    SpecDepthInv (drun s evs) := by
  induction evs generalizing s with
  | nil => exact h
  | cons e t ih => exact ih (dstep s e) (specInv_dstep s e h)

/-- C4 (amended): the specification depth counter of the Detail
Extractor never becomes negative, on any event stream, stray end tags
included; the breadcrumb and description counters are not so guarded. -/
theorem spec_depth_never_negative (evs : List Event) :
    0 ≤ (drun initD evs).spec_depth := by
  have h := specInv_drun initD evs ⟨by intro hh; simp [initD] at hh, fun _ => rfl⟩
  obtain ⟨h1, h2⟩ := h
  cases hf : (drun initD evs).in_specifications with
  | true => have := h1 hf; omega
  | false => have := h2 hf; omega

/-- C4 counterexample: two stray `li` end tags right after the
breadcrumb container opens drive the breadcrumb depth counter to -1,
refuting the claim that no Detail Extractor depth counter ever becomes
negative. -/
theorem breadcrumb_depth_goes_negative :
    (drun initD strayEndEvs).breadcrumb_depth = -1 := by decide

/-- C5 (amended): inside a stock region, a `div` end tag closes the
region and sets the availability flag only when the accumulated text
buffer is non-empty; with an empty buffer the end tag is ignored and the
region stays open.  The texts `In Stock` and `Out of Stock` yield
`true` and `false` respectively. -/
theorem stock_region_close_requires_text :
    (∀ s : DState, s.in_breadcrumbs = false → s.in_description = false →
      s.in_stock_status = true →
      (s.stock_buffer ≠ [] →
        d_handle_endtag s "div" =
          { s with
            stock_available :=
              some (strContains (pyLower (pyStrip (pyJoin s.stock_buffer))) "in stock")
            stock_buffer := []
            in_stock_status := false }) ∧
      (s.stock_buffer = [] → d_handle_endtag s "div" = s)) ∧
    (drun initD stockInEvs).stock_available = some true ∧
    (drun initD stockOutEvs).stock_available = some false := by
  refine ⟨?_, by decide, by decide⟩
  intro s h1 h2 h3
  constructor <;> intro hb <;> simp [d_handle_endtag, h1, h2, h3, hb]

theorem stock_region_close_requires_text_witness :
    stockDemoState.stock_buffer ≠ [] ∧
    d_handle_endtag stockDemoState "div" =
      { stockDemoState with
        stock_available :=
          some (strContains (pyLower (pyStrip (pyJoin stockDemoState.stock_buffer))) "in stock")
        stock_buffer := []
        in_stock_status := false } :=
  ⟨by decide, (stock_region_close_requires_text.1 stockDemoState rfl rfl rfl).1 (by decide)⟩

/-- C5 counterexample: a stock region containing no text at all is not
closed by its `div` end tag and the availability flag stays unset,
refuting the claim that the region closes on the first `div` end tag
even with no text. -/
theorem empty_stock_region_stays_open :
    (drun initD stockEmptyEvs).in_stock_status = true ∧
    (drun initD stockEmptyEvs).stock_available = none := by decide

set_option maxRecDepth 8192 in
/-- C7: within the breadcrumb region, a closing `span` with a pending
captured name appends the joined trimmed text to the category list at
the tail exactly when it is non-empty and differs from `Home` and
`Products`; the trail Home, Products, Snacks, Crackers yields the
category list `["Snacks", "Crackers"]`. -/
theorem breadcrumb_exclusion :
    (∀ s : DState, s.in_breadcrumbs = true → s.capture_breadcrumb_name = true →
      (d_handle_endtag s "span").categories =
        s.categories ++
          (if pyStrip (pyJoin s.breadcrumb_buffer) ≠ "" ∧
              pyStrip (pyJoin s.breadcrumb_buffer) ≠ "Home" ∧
              pyStrip (pyJoin s.breadcrumb_buffer) ≠ "Products" then
            [pyStrip (pyJoin s.breadcrumb_buffer)]
          else [])) ∧
    (drun initD trailEvs).categories = ["Snacks", "Crackers"] := by
  refine ⟨?_, by decide⟩
  intro s h1 h2
  simp only [d_handle_endtag, h1, if_true]
  unfold d_end_breadcrumb
  by_cases hc : pyStrip (pyJoin s.breadcrumb_buffer) ≠ "" ∧
      pyStrip (pyJoin s.breadcrumb_buffer) ≠ "Home" ∧
      pyStrip (pyJoin s.breadcrumb_buffer) ≠ "Products" <;>
    simp [h2, hc]

theorem breadcrumb_exclusion_witness :
    bcDemoState.in_breadcrumbs = true ∧
    (d_handle_endtag bcDemoState "span").categories =
      bcDemoState.categories ++
        (if pyStrip (pyJoin bcDemoState.breadcrumb_buffer) ≠ "" ∧
            pyStrip (pyJoin bcDemoState.breadcrumb_buffer) ≠ "Home" ∧
            pyStrip (pyJoin bcDemoState.breadcrumb_buffer) ≠ "Products" then
          [pyStrip (pyJoin bcDemoState.breadcrumb_buffer)]
        else []) :=
  ⟨rfl, breadcrumb_exclusion.1 bcDemoState rfl rfl⟩

/-- C10: the public result accessor returns empty collections as absent:
categories, price tiers and specifications are never `some` of an empty
collection, and are `none` exactly when nothing was extracted. -/
theorem get_product_data_no_empty_collections (s : DState) :
    (get_product_data s).categories ≠ some [] ∧
    (get_product_data s).price_tiers ≠ some [] ∧
    (get_product_data s).specifications ≠ some [] ∧
    ((get_product_data s).categories = none ↔ s.categories = []) ∧
    ((get_product_data s).price_tiers = none ↔ s.price_tiers = []) ∧
    ((get_product_data s).specifications = none ↔ s.specifications = []) := by
  by_cases h1 : s.categories = [] <;> by_cases h2 : s.price_tiers = [] <;>
    by_cases h3 : s.specifications = [] <;>
    simp [get_product_data, h1, h2, h3]

theorem tryMatch_nil : tryMatch [] = none := rfl

theorem regexSearch_none_iff (s : List Char) :
    regexSearch s = none ↔ ∀ i, tryMatch (s.drop i) = none := by
  induction s with
  | nil =>
    constructor
    · intro h i
      rw [List.drop_nil]
      exact h
    · intro h
      exact h 0
  | cons c t ih =>
    cases hm : tryMatch (c :: t) with
    | some n =>
      constructor
      · intro h
        exfalso
        simp only [regexSearch, hm] at h
        exact Option.noConfusion h
      · intro h
        exact absurd (h 0) (by simp [hm])
    | none =>
      have he : regexSearch (c :: t) = regexSearch t := by simp [regexSearch, hm]
      rw [he, ih]
      constructor
      · intro h i
        cases i with
        | zero => simpa using hm
        | succ j => simpa [List.drop_succ_cons] using h j
      · intro h j
        simpa [List.drop_succ_cons] using h (j + 1)

theorem regexSearch_some (s : List Char) (n : Nat) (h : regexSearch s = some n) :
    ∃ i, tryMatch (s.drop i) = some n ∧ ∀ j, j < i → tryMatch (s.drop j) = none := by
  induction s with
  | nil =>
    exfalso
    rw [show regexSearch ([] : List Char) = tryMatch [] from rfl, tryMatch_nil] at h
    cases h
  | cons c t ih =>
    cases hm : tryMatch (c :: t) with
    | some m =>
      have he : regexSearch (c :: t) = some m := by simp [regexSearch, hm]
      rw [he] at h
      obtain rfl : m = n := by injection h
      refine ⟨0, by simpa using hm, ?_⟩
      intro j hj
      exact absurd hj (Nat.not_lt_zero j)
    | none =>
      have he : regexSearch (c :: t) = regexSearch t := by simp [regexSearch, hm]
      rw [he] at h
      obtain ⟨i, h1, h2⟩ := ih h
      refine ⟨i + 1, by simpa [List.drop_succ_cons] using h1, ?_⟩
      intro j hj
      cases j with
      | zero => simpa using hm
      | succ k => simpa [List.drop_succ_cons] using h2 k (by omega)

/-- C3: whenever the text contains an occurrence of the pattern
(the word Products, optional whitespace, then a parenthesized decimal
integer), both Total-Count Reader revisions return the integer captured
at the leftmost occurrence; when no position matches, the revision in
`parser.py` returns the constant 4343 while the revision in
`experimental/app.py` raises (returns `none`). -/
theorem total_count_reader_first_occurrence (html : String) :
    ((∃ i, (tryMatch (html.data.drop i)).isSome = true) →
      ∃ i n, tryMatch (html.data.drop i) = some n ∧
        (∀ j, j < i → tryMatch (html.data.drop j) = none) ∧
        extract_total_products html = n ∧
        extract_total_products_app html = some n) ∧
    ((∀ i, tryMatch (html.data.drop i) = none) →
      extract_total_products html = 4343 ∧
      extract_total_products_app html = none) := by
  constructor
  · rintro ⟨i, hi⟩
    cases hr : regexSearch html.data with
    | none =>
      exfalso
      rw [(regexSearch_none_iff html.data).1 hr i] at hi
      cases hi
    | some n =>
      obtain ⟨i0, h1, h2⟩ := regexSearch_some html.data n hr
      exact ⟨i0, n, h1, h2, by simp [extract_total_products, hr],
        by simp [extract_total_products_app, hr]⟩
  · intro hall
    have hr : regexSearch html.data = none := (regexSearch_none_iff html.data).2 hall
    exact ⟨by simp [extract_total_products, hr],
      by simp [extract_total_products_app, hr]⟩

theorem total_count_reader_first_occurrence_witness :
    (∃ i n, tryMatch (("Products (7)" : String).data.drop i) = some n ∧
      (∀ j, j < i → tryMatch (("Products (7)" : String).data.drop j) = none) ∧
      extract_total_products "Products (7)" = n ∧
      extract_total_products_app "Products (7)" = some n) ∧
    (extract_total_products "" = 4343 ∧ extract_total_products_app "" = none) :=
  ⟨(total_count_reader_first_occurrence "Products (7)").1 ⟨0, by decide⟩,
   (total_count_reader_first_occurrence "").2
     (fun i => by
       rw [show ("" : String).data = ([] : List Char) from rfl, List.drop_nil]
       decide)⟩

theorem dhdb_tier_pres (u : DState) (st : String) :
    (dhd_breadcrumb u st).price_tiers = u.price_tiers ∧
    (dhd_breadcrumb u st).tier_quantity = u.tier_quantity ∧
    (dhd_breadcrumb u st).tier_price_piece = u.tier_price_piece ∧
    (dhd_breadcrumb u st).tier_price_box = u.tier_price_box ∧
    (dhd_breadcrumb u st).in_tier_price_row = u.in_tier_price_row ∧
    (dhd_breadcrumb u st).in_tier_price_table = u.in_tier_price_table ∧
    (dhd_breadcrumb u st).tier_cell_index = u.tier_cell_index ∧
    (dhd_breadcrumb u st).tier_price_current_cell_skip = u.tier_price_current_cell_skip := by
  unfold dhd_breadcrumb
  refine ⟨?_, ?_, ?_, ?_, ?_, ?_, ?_, ?_⟩ <;> (repeat' split) <;> rfl

theorem dhdd_tier_pres (u : DState) (st : String) :
    (dhd_description u st).price_tiers = u.price_tiers ∧
    (dhd_description u st).tier_quantity = u.tier_quantity ∧
    (dhd_description u st).tier_price_piece = u.tier_price_piece ∧
    (dhd_description u st).tier_price_box = u.tier_price_box ∧
    (dhd_description u st).in_tier_price_row = u.in_tier_price_row ∧
    (dhd_description u st).in_tier_price_table = u.in_tier_price_table ∧
    (dhd_description u st).tier_cell_index = u.tier_cell_index ∧
    (dhd_description u st).tier_price_current_cell_skip = u.tier_price_current_cell_skip := by
  unfold dhd_description
  refine ⟨?_, ?_, ?_, ?_, ?_, ?_, ?_, ?_⟩ <;> (repeat' split) <;> rfl

theorem dhds_tier_pres (u : DState) (st : String) :
    (dhd_stock u st).price_tiers = u.price_tiers ∧
    (dhd_stock u st).tier_quantity = u.tier_quantity ∧
    (dhd_stock u st).tier_price_piece = u.tier_price_piece ∧
    (dhd_stock u st).tier_price_box = u.tier_price_box ∧
    (dhd_stock u st).in_tier_price_row = u.in_tier_price_row ∧
    (dhd_stock u st).in_tier_price_table = u.in_tier_price_table ∧
    (dhd_stock u st).tier_cell_index = u.tier_cell_index ∧
    (dhd_stock u st).tier_price_current_cell_skip = u.tier_price_current_cell_skip := by
  unfold dhd_stock
  refine ⟨?_, ?_, ?_, ?_, ?_, ?_, ?_, ?_⟩ <;> (repeat' split) <;> rfl

theorem dhdsp_tier_pres (u : DState) (st : String) :
    (dhd_spec u st).price_tiers = u.price_tiers ∧
    (dhd_spec u st).tier_quantity = u.tier_quantity ∧
    (dhd_spec u st).tier_price_piece = u.tier_price_piece ∧
    (dhd_spec u st).tier_price_box = u.tier_price_box ∧
    (dhd_spec u st).in_tier_price_row = u.in_tier_price_row ∧
    (dhd_spec u st).in_tier_price_table = u.in_tier_price_table ∧
    (dhd_spec u st).tier_cell_index = u.tier_cell_index ∧
    (dhd_spec u st).tier_price_current_cell_skip = u.tier_price_current_cell_skip := by
  unfold dhd_spec
  refine ⟨?_, ?_, ?_, ?_, ?_, ?_, ?_, ?_⟩ <;> (repeat' split) <;> rfl

theorem dhdt_tiers_pres (u : DState) (st : String) :
    (dhd_tier u st).price_tiers = u.price_tiers := by
  unfold dhd_tier
  (repeat' split) <;> rfl

theorem dhd_tier_char (u : DState) (st : String) :
    ((dhd_tier u st).tier_quantity = u.tier_quantity ∨
      (u.in_tier_price_row = true ∧ u.in_tier_price_table = true ∧
        u.tier_price_current_cell_skip = false ∧
        u.tier_cell_index = TIER_QUANTITY_INDEX ∧ u.tier_quantity = none ∧
        st ≠ "" ∧ (dhd_tier u st).tier_quantity = some st)) ∧
    ((dhd_tier u st).tier_price_piece = u.tier_price_piece ∨
      (u.in_tier_price_row = true ∧ u.in_tier_price_table = true ∧
        u.tier_price_current_cell_skip = false ∧
        u.tier_cell_index = TIER_PRICE_PIECE_INDEX ∧ u.tier_price_piece = none ∧
        st ≠ "" ∧ (dhd_tier u st).tier_price_piece = some st)) ∧
    ((dhd_tier u st).tier_price_box = u.tier_price_box ∨
      (u.in_tier_price_row = true ∧ u.in_tier_price_table = true ∧
        u.tier_price_current_cell_skip = false ∧
        u.tier_cell_index = TIER_PRICE_BOX_INDEX ∧ u.tier_price_box = none ∧
        st ≠ "" ∧ (dhd_tier u st).tier_price_box = some st)) := by
  unfold dhd_tier
  split_ifs with h1 h2 h3 h4
  · obtain ⟨ha, hb, hc, hd⟩ := h1
    obtain ⟨hi, hq⟩ := h2
    exact ⟨Or.inr ⟨ha, hb, hd, hi, hq, hc, rfl⟩, Or.inl rfl, Or.inl rfl⟩
  · obtain ⟨ha, hb, hc, hd⟩ := h1
    obtain ⟨hi, hp⟩ := h3
    exact ⟨Or.inl rfl, Or.inr ⟨ha, hb, hd, hi, hp, hc, rfl⟩, Or.inl rfl⟩
  · obtain ⟨ha, hb, hc, hd⟩ := h1
    obtain ⟨hi, hx⟩ := h4
    exact ⟨Or.inl rfl, Or.inl rfl, Or.inr ⟨ha, hb, hd, hi, hx, hc, rfl⟩⟩
  · exact ⟨Or.inl rfl, Or.inl rfl, Or.inl rfl⟩
  · exact ⟨Or.inl rfl, Or.inl rfl, Or.inl rfl⟩

/-- C6: within the tier-price table, text is captured into the quantity,
price-per-piece and price-per-box slots only at cell indices 3, 4 and 5
respectively, only when the cell is not marked skip, first non-null
wins; a `td` start tag is always counted (index incremented) and marked
skip exactly when its class contains hidden, icon or action; on the
closing `tr` a tier is appended at the tail exactly when all three
slots are non-empty, so tier entries appear in row order. -/
theorem tier_row_fixed_index_assignment (s : DState) (d : String)
    (attrs : List (String × String)) :
    ((d_handle_data s d).price_tiers = s.price_tiers) ∧
    ((d_handle_data s d).tier_quantity = s.tier_quantity ∨
      (s.in_tier_price_row = true ∧ s.in_tier_price_table = true ∧
        s.tier_price_current_cell_skip = false ∧
        s.tier_cell_index = TIER_QUANTITY_INDEX ∧ s.tier_quantity = none ∧
        pyStrip d ≠ "" ∧ (d_handle_data s d).tier_quantity = some (pyStrip d))) ∧
    ((d_handle_data s d).tier_price_piece = s.tier_price_piece ∨
      (s.in_tier_price_row = true ∧ s.in_tier_price_table = true ∧
        s.tier_price_current_cell_skip = false ∧
        s.tier_cell_index = TIER_PRICE_PIECE_INDEX ∧ s.tier_price_piece = none ∧
        pyStrip d ≠ "" ∧ (d_handle_data s d).tier_price_piece = some (pyStrip d))) ∧
    ((d_handle_data s d).tier_price_box = s.tier_price_box ∨
      (s.in_tier_price_row = true ∧ s.in_tier_price_table = true ∧
        s.tier_price_current_cell_skip = false ∧
        s.tier_cell_index = TIER_PRICE_BOX_INDEX ∧ s.tier_price_box = none ∧
        pyStrip d ≠ "" ∧ (d_handle_data s d).tier_price_box = some (pyStrip d))) ∧
    (s.in_breadcrumbs = false → s.in_description = false →
      s.in_tier_price_table = true → s.in_tier_price_row = true →
      (d_handle_starttag s "td" attrs).tier_cell_index = s.tier_cell_index + 1 ∧
      (d_handle_starttag s "td" attrs).tier_price_current_cell_skip =
        (strContains (getAttrD attrs "class" "") "hidden" ||
          strContains (getAttrD attrs "class" "") "icon" ||
          strContains (getAttrD attrs "class" "") "action")) ∧
    (s.in_breadcrumbs = false → s.in_description = false →
      s.in_stock_status = false → s.in_tier_price_table = true →
      s.in_tier_price_row = true →
      (d_handle_endtag s "tr").price_tiers =
        s.price_tiers ++
          (if optStrTruthy s.tier_quantity ∧ optStrTruthy s.tier_price_piece ∧
              optStrTruthy s.tier_price_box then
            [{ quantity := s.tier_quantity.getD ""
               price_per_piece := s.tier_price_piece.getD ""
               price_per_box := s.tier_price_box.getD "" }]
          else []) ∧
      (d_handle_endtag s "tr").in_tier_price_row = false) := by
  obtain ⟨b1, b2, b3, b4, b5, b6, b7, b8⟩ := dhdb_tier_pres s (pyStrip d)
  obtain ⟨c1, c2, c3, c4, c5, c6, c7, c8⟩ :=
    dhdd_tier_pres (dhd_breadcrumb s (pyStrip d)) (pyStrip d)
  obtain ⟨e1, e2, e3, e4, e5, e6, e7, e8⟩ :=
    dhds_tier_pres (dhd_description (dhd_breadcrumb s (pyStrip d)) (pyStrip d)) (pyStrip d)
  obtain ⟨f1, f2, f3, f4, f5, f6, f7, f8⟩ :=
    dhdsp_tier_pres
      (dhd_tier (dhd_stock (dhd_description (dhd_breadcrumb s (pyStrip d)) (pyStrip d)) (pyStrip d)) (pyStrip d))
      (pyStrip d)
  have hchar :=
    dhd_tier_char (dhd_stock (dhd_description (dhd_breadcrumb s (pyStrip d)) (pyStrip d)) (pyStrip d)) (pyStrip d)
  refine ⟨?_, ?_, ?_, ?_, ?_, ?_⟩
  · show (d_handle_data s d).price_tiers = s.price_tiers
    unfold d_handle_data
    dsimp only
    rw [f1, dhdt_tiers_pres, e1, c1, b1]
  · unfold d_handle_data
    dsimp only
    rcases hchar.1 with hq | ⟨hrow, htab, hskip, hidx, hnone, hst, hres⟩
    · left
      rw [f2, hq, e2, c2, b2]
    · right
      rw [e5, c5, b5] at hrow
      rw [e6, c6, b6] at htab
      rw [e8, c8, b8] at hskip
      rw [e7, c7, b7] at hidx
      rw [e2, c2, b2] at hnone
      exact ⟨hrow, htab, hskip, hidx, hnone, hst, by rw [f2]; exact hres⟩
  · unfold d_handle_data
    dsimp only
    rcases hchar.2.1 with hq | ⟨hrow, htab, hskip, hidx, hnone, hst, hres⟩
    · left
      rw [f3, hq, e3, c3, b3]
    · right
      rw [e5, c5, b5] at hrow
      rw [e6, c6, b6] at htab
      rw [e8, c8, b8] at hskip
      rw [e7, c7, b7] at hidx
      rw [e3, c3, b3] at hnone
      exact ⟨hrow, htab, hskip, hidx, hnone, hst, by rw [f3]; exact hres⟩
  · unfold d_handle_data
    dsimp only
    rcases hchar.2.2 with hq | ⟨hrow, htab, hskip, hidx, hnone, hst, hres⟩
    · left
      rw [f4, hq, e4, c4, b4]
    · right
      rw [e5, c5, b5] at hrow
      rw [e6, c6, b6] at htab
      rw [e8, c8, b8] at hskip
      rw [e7, c7, b7] at hidx
      rw [e4, c4, b4] at hnone
      exact ⟨hrow, htab, hskip, hidx, hnone, hst, by rw [f4]; exact hres⟩
  · intro h1 h2 h3 h4
    constructor <;>
      simp [d_handle_starttag, d_start_tier_price, h1, h2, h3, h4]
  · intro h1 h2 h3 h4 h5
    have hd : d_handle_endtag s "tr" = d_end_tier_price s "tr" := by
      simp [d_handle_endtag, h1, h2, h3, h4]
    rw [hd]
    unfold d_end_tier_price
    by_cases hc : optStrTruthy s.tier_quantity ∧ optStrTruthy s.tier_price_piece ∧
        optStrTruthy s.tier_price_box <;>
      simp [h5, hc]

theorem tier_row_fixed_index_assignment_witness :
    ((d_handle_starttag tierDemoState "td" [("class", "hidden")]).tier_cell_index =
        tierDemoState.tier_cell_index + 1 ∧
      (d_handle_starttag tierDemoState "td" [("class", "hidden")]).tier_price_current_cell_skip =
        (strContains (getAttrD [("class", "hidden")] "class" "") "hidden" ||
          strContains (getAttrD [("class", "hidden")] "class" "") "icon" ||
          strContains (getAttrD [("class", "hidden")] "class" "") "action")) ∧
    ((d_handle_endtag tierDemoState "tr").price_tiers =
        tierDemoState.price_tiers ++
          (if optStrTruthy tierDemoState.tier_quantity ∧
              optStrTruthy tierDemoState.tier_price_piece ∧
              optStrTruthy tierDemoState.tier_price_box then
            [{ quantity := tierDemoState.tier_quantity.getD ""
               price_per_piece := tierDemoState.tier_price_piece.getD ""
               price_per_box := tierDemoState.tier_price_box.getD "" }]
          else []) ∧
      (d_handle_endtag tierDemoState "tr").in_tier_price_row = false) :=
  ⟨(tier_row_fixed_index_assignment tierDemoState "x" [("class", "hidden")]).2.2.2.2.1
      rfl rfl rfl rfl,
   (tier_row_fixed_index_assignment tierDemoState "x" [("class", "hidden")]).2.2.2.2.2
      rfl rfl rfl rfl rfl⟩

theorem lcc_pres (s : LState) (t : String) (a : List (String × String)) :
    (l_capture_chain s t a).products = s.products ∧
    (l_capture_chain s t a).in_product_div = s.in_product_div ∧
    (l_capture_chain s t a).in_target_ol = s.in_target_ol ∧
    (l_capture_chain s t a).product_div_depth = s.product_div_depth := by
  unfold l_capture_chain
  refine ⟨?_, ?_, ?_, ?_⟩ <;> (repeat' split) <;> rfl

theorem l_data_pres (s : LState) (d : String) :
    (l_handle_data s d).products = s.products ∧
    (l_handle_data s d).in_product_div = s.in_product_div ∧
    (l_handle_data s d).in_target_ol = s.in_target_ol ∧
    (l_handle_data s d).product_div_depth = s.product_div_depth := by
  unfold l_handle_data
  dsimp only
  refine ⟨?_, ?_, ?_, ?_⟩ <;> (repeat' split) <;> rfl

theorem l_flush_pres (s : LState) :
    (l_end_flush s).products = s.products ∧
    (l_end_flush s).in_product_div = s.in_product_div ∧
    (l_end_flush s).in_target_ol = s.in_target_ol ∧
    (l_end_flush s).product_div_depth = s.product_div_depth ∧
    (l_end_flush s).ol_depth = s.ol_depth := by
  unfold l_end_flush
  dsimp only
  refine ⟨?_, ?_, ?_, ?_, ?_⟩ <;> (repeat' split) <;> rfl

theorem l_end_ol_pres (s : LState) (t : String) :
    (l_end_ol s t).products = s.products ∧
    (l_end_ol s t).in_product_div = s.in_product_div ∧
    (l_end_ol s t).product_div_depth = s.product_div_depth := by
  unfold l_end_ol
  dsimp only
  refine ⟨?_, ?_, ?_⟩ <;> (repeat' split) <;> rfl

theorem l_starttag_products (s : LState) (t : String) (a : List (String × String))
    (s' : LState) (h : l_handle_starttag s t a = some s') :
    s'.products = s.products := by
  unfold l_handle_starttag at h
  dsimp only at h
  split_ifs at h
  all_goals try (split at h)
  all_goals
    first
      | (injection h; done)
      | (injection h with h; subst h; first | rfl | (rw [(lcc_pres _ _ _).1]))

theorem lrun_append (s : LState) (xs ys : List Event) :
    lrun s (xs ++ ys) =
      match lrun s xs with
      | some m => lrun m ys
      | none => none := by
  induction xs generalizing s with
  | nil => rfl
  | cons e t ih =>
    show lrun s (e :: (t ++ ys)) = _
    cases h : lstep s e with
    | some s1 => simp [lrun, h, ih]
    | none => simp [lrun, h]

theorem lcc_div (s : LState) (t : String) (a : List (String × String)) :
    (l_capture_chain s t a).in_product_div = s.in_product_div :=
  (lcc_pres s t a).2.1

theorem lcc_depth (s : LState) (t : String) (a : List (String × String)) :
    (l_capture_chain s t a).product_div_depth = s.product_div_depth :=
  (lcc_pres s t a).2.2.2

theorem l_end_div_char (u : LState) (t : String) :
    ((t = "div" ∧ u.in_product_div = true ∧ u.product_div_depth = 1) →
      (l_end_div u t).products = u.products ++ [u.current_product] ∧
        (l_end_div u t).in_product_div = false) ∧
    (¬(t = "div" ∧ u.in_product_div = true ∧ u.product_div_depth = 1) →
      (l_end_div u t).products = u.products) := by
  unfold l_end_div
  dsimp only
  constructor
  · rintro ⟨h1, h2, h3⟩
    simp [h1, h2, h3]
  · intro hn
    by_cases hc : u.in_product_div = true ∧ t = "div"
    · have hd : ¬(u.product_div_depth - 1 = 0) := by
        intro h0
        exact hn ⟨hc.2, hc.1, by omega⟩
      simp [hc, hd]
    · simp [hc]

theorem lstep_products_char (s : LState) (e : Event) (s' : LState)
    (h : lstep s e = some s') :
    (isItemClose s e = false → s'.products = s.products) ∧
    (isItemClose s e = true →
      ∃ p, s'.products = s.products ++ [p] ∧ s'.in_product_div = false) := by
  cases e with
  | start t a =>
    refine ⟨fun _ => l_starttag_products s t a s' h, fun hc => ?_⟩
    simp [isItemClose] at hc
  | text d =>
    simp only [lstep] at h
    injection h with h
    subst h
    refine ⟨fun _ => (l_data_pres s d).1, fun hc => ?_⟩
    simp [isItemClose] at hc
  | endTag t =>
    simp only [lstep] at h
    injection h with h
    subst h
    have hfl := l_flush_pres s
    constructor
    · intro hc
      simp only [isItemClose, decide_eq_false_iff_not] at hc
      have hn : ¬(t = "div" ∧ (l_end_flush s).in_product_div = true ∧
          (l_end_flush s).product_div_depth = 1) := by
        rw [hfl.2.1, hfl.2.2.2.1]
        intro hx
        exact hc ⟨hx.1, hx.2.1, hx.2.2⟩
      show (l_end_ol (l_end_div (l_end_flush s) t) t).products = s.products
      rw [(l_end_ol_pres _ _).1, (l_end_div_char _ _).2 hn, hfl.1]
    · intro hc
      simp only [isItemClose, decide_eq_true_eq] at hc
      obtain ⟨h1, h2, h3⟩ := hc
      have hx : t = "div" ∧ (l_end_flush s).in_product_div = true ∧
          (l_end_flush s).product_div_depth = 1 := by
        rw [hfl.2.1, hfl.2.2.2.1]
        exact ⟨h1, h2, h3⟩
      obtain ⟨hp, hf⟩ := (l_end_div_char (l_end_flush s) t).1 hx
      refine ⟨(l_end_flush s).current_product, ?_, ?_⟩
      · show (l_end_ol (l_end_div (l_end_flush s) t) t).products = _
        rw [(l_end_ol_pres _ _).1, hp, hfl.1]
      · show (l_end_ol (l_end_div (l_end_flush s) t) t).in_product_div = false
        rw [(l_end_ol_pres _ _).2.1, hf]

theorem lrun_products_length (evs : List Event) :
    ∀ (s s' : LState), lrun s evs = some s' →
      s'.products.length = s.products.length + lclosures s evs := by
  induction evs with
  | nil =>
    intro s s' h
    injection h with h
    subst h
    simp [lclosures]
  | cons e t ih =>
    intro s s' h
    rw [show lrun s (e :: t) =
      (match lstep s e with
       | some s1 => lrun s1 t
       | none => none) from rfl] at h
    unfold lclosures
    cases hs : lstep s e with
    | none =>
      rw [hs] at h
      simp at h
    | some s1 =>
      rw [hs] at h
      have h' : lrun s1 t = some s' := h
      show s'.products.length =
        s.products.length + ((if isItemClose s e = true then 1 else 0) + lclosures s1 t)
      have hlen := ih s1 s' h'
      obtain ⟨hA, hB⟩ := lstep_products_char s e s1 hs
      cases hic : isItemClose s e with
      | false =>
        rw [hlen, hA hic]
        simp [hic]
      | true =>
        obtain ⟨p, hp, _⟩ := hB hic
        rw [hlen, hp]
        simp [hic]
        omega

/-- C9 (amended): a Listing Record is appended exactly at a step where a
`div` end tag returns the open item frame to depth zero, and it is
appended at the tail (so records appear in document order); the number
of emitted records equals the number of such closure steps.  When item
containers are nested, the inner container start resets the open frame,
so the record count can be smaller than the number of item-container
open/close pairs. -/
theorem records_appended_only_at_item_close :
    (∀ (s : LState) (e : Event) (s' : LState), lstep s e = some s' →
      (isItemClose s e = false → s'.products = s.products) ∧
      (isItemClose s e = true →
        ∃ p, s'.products = s.products ++ [p] ∧ s'.in_product_div = false)) ∧
    (∀ (s : LState) (evs : List Event) (s' : LState), lrun s evs = some s' →
      s'.products.length = s.products.length + lclosures s evs) :=
  ⟨lstep_products_char, fun s evs s' h => lrun_products_length evs s s' h⟩

theorem records_appended_only_at_item_close_witness :
    isItemClose itemOpenDemoState (Event.endTag "div") = true ∧
    (∃ p, (l_handle_endtag itemOpenDemoState "div").products =
        itemOpenDemoState.products ++ [p] ∧
      (l_handle_endtag itemOpenDemoState "div").in_product_div = false) :=
  ⟨by decide,
   (records_appended_only_at_item_close.1 itemOpenDemoState (Event.endTag "div")
      (l_handle_endtag itemOpenDemoState "div") rfl).2 (by decide)⟩

/-- C9 counterexample: a balanced stream with one item container nested
inside another has two item-container open/close pairs inside the
matched list but yields only one Listing Record, refuting the claimed
equality of record count and pair count on well-formed inputs. -/
theorem nested_item_containers_fewer_records :
    wellFormedEvents nestedItemsEvs = true ∧
    countItemOpens nestedItemsEvs = 2 ∧
    (lrun initL nestedItemsEvs).map (fun st => st.products.length) = some 1 := by
  decide

theorem l_closed_step (s : LState) (e : Event) (s' : LState)
    (hol : s.in_target_ol = false) (hdiv : s.in_product_div = false)
    (hnc : isContainerStart e = false) (h : lstep s e = some s') :
    s'.products = s.products ∧ s'.in_target_ol = false ∧
      s'.in_product_div = false := by
  cases e with
  | start t a =>
    have hnc' : ¬(t = "ol" ∧
        getAttr a "class" = some "products list items product-items") := by
      simpa [isContainerStart] using hnc
    simp only [lstep] at h
    unfold l_handle_starttag at h
    dsimp only at h
    rw [if_neg hnc'] at h
    simp [hol, hdiv] at h
    first
      | exact ⟨rfl, hol, hdiv⟩
      | (cases h; exact ⟨rfl, hol, hdiv⟩)
  | text d =>
    simp only [lstep] at h
    injection h with h
    subst h
    have hp := l_data_pres s d
    refine ⟨hp.1, ?_, ?_⟩
    · rw [hp.2.2.1]; exact hol
    · rw [hp.2.1]; exact hdiv
  | endTag t =>
    simp only [lstep] at h
    injection h with h
    subst h
    have hfl := l_flush_pres s
    have hdiv1 : (l_end_flush s).in_product_div = false := by
      rw [hfl.2.1]; exact hdiv
    have hol1 : (l_end_flush s).in_target_ol = false := by
      rw [hfl.2.2.1]; exact hol
    have h2 : l_end_div (l_end_flush s) t = l_end_flush s := by
      unfold l_end_div
      rw [if_neg (by simp [hdiv1])]
    have h3 : l_end_ol (l_end_flush s) t = l_end_flush s := by
      unfold l_end_ol
      rw [if_neg (by simp [hol1])]
    show (l_end_ol (l_end_div (l_end_flush s) t) t).products = s.products ∧
      (l_end_ol (l_end_div (l_end_flush s) t) t).in_target_ol = false ∧
      (l_end_ol (l_end_div (l_end_flush s) t) t).in_product_div = false
    rw [h2, h3]
    exact ⟨hfl.1, hol1, hdiv1⟩

theorem l_closed_run (evs : List Event) :
    ∀ (s s' : LState), s.in_target_ol = false → s.in_product_div = false →
      (∀ e ∈ evs, isContainerStart e = false) →
      lrun s evs = some s' →
      s'.products = s.products ∧ s'.in_target_ol = false ∧
        s'.in_product_div = false := by
  induction evs with
  | nil =>
    intro s s' h1 h2 _ h
    injection h with h
    subst h
    exact ⟨rfl, h1, h2⟩
  | cons e t ih =>
    intro s s' h1 h2 hall h
    cases hs : lstep s e with
    | none =>
      rw [show lrun s (e :: t) =
        (match lstep s e with
         | some s1 => lrun s1 t
         | none => none) from rfl, hs] at h
      simp at h
    | some s1 =>
      rw [show lrun s (e :: t) =
        (match lstep s e with
         | some s1 => lrun s1 t
         | none => none) from rfl, hs] at h
      obtain ⟨p1, p2, p3⟩ :=
        l_closed_step s e s1 h1 h2 (hall e (by simp)) hs
      obtain ⟨q1, q2, q3⟩ :=
        ih s1 s' p2 p3 (fun x hx => hall x (by simp [hx])) h
      exact ⟨q1.trans p1, q2, q3⟩

/-- C1 (amended): while both the container frame and the item frame are
closed, no Listing Record is appended as long as no further start tag
matches the container trigger; but a later matching `ol` start tag
reopens the container frame (at depth 1), after which records can again
be collected. -/
theorem no_records_while_container_closed :
    (∀ (s s' : LState) (evs : List Event),
      s.in_target_ol = false → s.in_product_div = false →
      (∀ e ∈ evs, isContainerStart e = false) →
      lrun s evs = some s' → s'.products = s.products) ∧
    (∀ (s s' : LState) (attrs : List (String × String)),
      getAttr attrs "class" = some "products list items product-items" →
      lstep s (Event.start "ol" attrs) = some s' →
      s'.in_target_ol = true ∧ s'.ol_depth = 1) := by
  constructor
  · intro s s' evs h1 h2 h3 h
    exact (l_closed_run evs s s' h1 h2 h3 h).1
  · intro s s' attrs hcl h
    simp only [lstep] at h
    unfold l_handle_starttag at h
    rw [if_pos ⟨rfl, hcl⟩] at h
    injection h with h
    subst h
    exact ⟨rfl, rfl⟩

theorem no_records_while_container_closed_witness :
    (l_handle_data initL "x").products = initL.products ∧
    (({ initL with in_target_ol := true, ol_depth := 1 } : LState).in_target_ol = true ∧
      ({ initL with in_target_ol := true, ol_depth := 1 } : LState).ol_depth = 1) :=
  ⟨no_records_while_container_closed.1 initL (l_handle_data initL "x")
      [Event.text "x"] rfl rfl (by decide) rfl,
   no_records_while_container_closed.2 initL
      { initL with in_target_ol := true, ol_depth := 1 }
      [("class", "products list items product-items")] (by decide) (by decide)⟩

/-- C1 counterexample: after the first matching list closes (container
frame closed, one record emitted), a second start tag matching the
container trigger reopens collection and a second record is appended,
refuting the claim that no further record is ever appended. -/
theorem second_matching_list_collects_again :
    (lrun initL oneListEvs).map (fun st => (st.in_target_ol, st.products.length)) =
      some (false, 1) ∧
    twoListsEvs = oneListEvs ++
      [olStart, itemTag "2", Event.endTag "div", Event.endTag "ol"] ∧
    (lrun initL twoListsEvs).map (fun st => st.products.length) = some 2 := by
  decide

/-- C2 (amended): on an item-container start tag inside the matched
list, an absent or empty `data-product-id` attribute yields identifier 0
and the parser continues; a non-empty attribute that Python `int` cannot
parse makes the handler raise instead of defaulting. -/
theorem product_id_missing_or_empty_defaults_zero :
    ∀ (s : LState) (attrs : List (String × String)),
      s.in_target_ol = true →
      getAttr attrs "class" = some "product-item-info" →
      ((getAttr attrs "data-product-id" = none ∨
          getAttr attrs "data-product-id" = some "") →
        ∃ s', l_handle_starttag s "div" attrs = some s' ∧
          pydictGet s'.current_product "product_id" = some (PValue.int 0) ∧
          s'.in_product_div = true ∧ s'.product_div_depth = 1) ∧
      (∀ v, getAttr attrs "data-product-id" = some v → v ≠ "" →
        pyInt? v = none → l_handle_starttag s "div" attrs = none) := by
  intro s attrs hol hcls
  have c1 : ¬("div" = "ol" ∧
      getAttr attrs "class" = some "products list items product-items") := by simp
  have c2 : ¬(s.in_target_ol = true ∧ "div" = "ol") := by simp
  constructor
  · intro hid
    unfold l_handle_starttag
    dsimp only
    rw [if_neg c1, if_neg c2, if_pos ⟨hol, rfl, hcls⟩]
    have hz : pyIntField (getAttr attrs "data-product-id") = some 0 := by
      rcases hid with hid | hid <;> rw [hid] <;> rfl
    rw [hz]
    exact ⟨_, rfl, rfl, rfl, rfl⟩
  · intro v hv hne hpi
    unfold l_handle_starttag
    dsimp only
    rw [if_neg c1, if_neg c2, if_pos ⟨hol, rfl, hcls⟩]
    have hz : pyIntField (getAttr attrs "data-product-id") = none := by
      rw [hv]
      show (if v = "" then some 0 else pyInt? v) = none
      rw [if_neg hne]
      exact hpi
    rw [hz]

theorem product_id_missing_or_empty_defaults_zero_witness :
    ∃ s', l_handle_starttag listDemoState "div" [("class", "product-item-info")] = some s' ∧
      pydictGet s'.current_product "product_id" = some (PValue.int 0) ∧
      s'.in_product_div = true ∧ s'.product_div_depth = 1 :=
  (product_id_missing_or_empty_defaults_zero listDemoState
      [("class", "product-item-info")] rfl (by decide)).1 (Or.inl (by decide))

/-- C2 counterexample: an item container whose `data-product-id` is the
non-numeric text `abc` makes the Listing Extractor raise (the run
fails), refuting the claim that a non-numeric identifier attribute
yields identifier 0 without failing. -/
theorem nonnumeric_product_id_raises :
    lrun initL badIdEvs = none := by decide

theorem l_starttag_iteminv (s : LState) (t : String)
    (a : List (String × String)) (s' : LState)
    (h : l_handle_starttag s t a = some s') (hi : ItemDepthInv s) :
    ItemDepthInv s' := by
  unfold ItemDepthInv at hi ⊢
  unfold l_handle_starttag at h
  dsimp only at h
  split_ifs at h
  all_goals try (split at h)
  all_goals
    first
      | (injection h; done)
      | (injection h with h; subst h;
         intro hI;
         try simp only [lcc_div] at hI;
         try simp only [lcc_depth];
         try dsimp only at hI ⊢;
         first
           | exact hi hI
           | omega
           | (have hx := hi hI; omega))

theorem l_end_div_iteminv (u : LState) (t : String) (hi : ItemDepthInv u) :
    ItemDepthInv (l_end_div u t) := by
  unfold l_end_div
  dsimp only
  split_ifs with h1 h2
  · intro hI
    simp at hI
  · intro hI
    dsimp only at hI ⊢
    have := hi h1.1
    omega
  · exact hi

theorem l_end_ol_iteminv (u : LState) (t : String) (hi : ItemDepthInv u) :
    ItemDepthInv (l_end_ol u t) := by
  intro hI
  rw [(l_end_ol_pres u t).2.2]
  exact hi (by rw [← (l_end_ol_pres u t).2.1]; exact hI)

theorem itemInv_lstep (s : LState) (e : Event) (s' : LState)
    (h : lstep s e = some s') (hi : ItemDepthInv s) : ItemDepthInv s' := by
  cases e with
  | start t a =>
    exact l_starttag_iteminv s t a s' h hi
  | text d =>
    simp only [lstep] at h
    injection h with h
    subst h
    intro hI
    rw [(l_data_pres s d).2.2.2]
    exact hi (by rw [← (l_data_pres s d).2.1]; exact hI)
  | endTag t =>
    simp only [lstep] at h
    injection h with h
    subst h
    have hif : ItemDepthInv (l_end_flush s) := by
      intro hx
      rw [(l_flush_pres s).2.2.2.1]
      exact hi (by rw [← (l_flush_pres s).2.1]; exact hx)
    exact l_end_ol_iteminv _ t (l_end_div_iteminv _ t hif)

theorem itemInv_lrun (evs : List Event) :
    ∀ (s s' : LState), ItemDepthInv s → lrun s evs = some s' →
      ItemDepthInv s' := by
  induction evs with
  | nil =>
    intro s s' hi h
    injection h with h
    subst h
    exact hi
  | cons e t ih =>
    intro s s' hi h
    cases hs : lstep s e with
    | none =>
      rw [show lrun s (e :: t) =
        (match lstep s e with
         | some s1 => lrun s1 t
         | none => none) from rfl, hs] at h
      simp at h
    | some s1 =>
      rw [show lrun s (e :: t) =
        (match lstep s e with
         | some s1 => lrun s1 t
         | none => none) from rfl, hs] at h
      exact ih s1 s' (itemInv_lstep s e s1 hs hi) h

theorem wrap_start_step (s : LState) (hdiv : s.in_product_div = true) :
    l_handle_starttag s "div" [] =
      some { s with product_div_depth := s.product_div_depth + 1 } := by
  simp +decide [l_handle_starttag, l_capture_chain, hdiv]

theorem wrap_end_step (s : LState) (hdiv : s.in_product_div = true)
    (hcap : s.capture_field = none) (hdep : 1 ≤ s.product_div_depth) :
    l_handle_endtag { s with product_div_depth := s.product_div_depth + 1 } "div" = s := by
  unfold l_handle_endtag
  have hfl : l_end_flush { s with product_div_depth := s.product_div_depth + 1 } =
      { s with product_div_depth := s.product_div_depth + 1 } := by
    simp [l_end_flush, hcap]
  rw [hfl]
  have hne : s.product_div_depth ≠ 0 := by omega
  have hdd : l_end_div { s with product_div_depth := s.product_div_depth + 1 } "div" = s := by
    simp [l_end_div, hdiv, hne]
    rw [← hdiv]
  rw [hdd]
  have hno : ¬(s.in_target_ol = true ∧ "div" = "ol") := by simp
  unfold l_end_ol
  rw [if_neg hno]

/-- C8 (amended): inserting a balanced empty `div` wrapper pair (with no
attributes, so matching no capture trigger) at a point where the item
frame is open and no capture target is active leaves the whole remaining
run, and hence every extracted record, unchanged.  When a capture target
is active at the insertion point the wrapper end tag flushes the capture
early and the extracted fields can change. -/
theorem wrapper_insertion_outside_capture_preserves_run :
    ∀ (xs ys : List Event),
      (lrun initL xs).map (fun st => (st.in_product_div, st.capture_field)) =
        some (true, (none : Option String)) →
      lrun initL (xs ++ wrapPair ++ ys) = lrun initL (xs ++ ys) := by
  intro xs ys h
  cases hx : lrun initL xs with
  | none =>
    rw [hx] at h
    simp at h
  | some s1 =>
    rw [hx] at h
    simp at h
    obtain ⟨hdiv, hcap⟩ := h
    have hinv : ItemDepthInv s1 :=
      itemInv_lrun xs initL s1 (fun hh => by simp [initL] at hh) hx
    have hdep := hinv hdiv
    have key : lrun s1 (wrapPair ++ ys) = lrun s1 ys := by
      show lrun s1 (Event.start "div" [] :: Event.endTag "div" :: ys) = lrun s1 ys
      rw [show lrun s1 (Event.start "div" [] :: Event.endTag "div" :: ys) =
        (match lstep s1 (Event.start "div" []) with
         | some m => lrun m (Event.endTag "div" :: ys)
         | none => none) from rfl]
      rw [show lstep s1 (Event.start "div" []) = l_handle_starttag s1 "div" [] from rfl]
      rw [wrap_start_step s1 hdiv]
      show lrun (l_handle_endtag { s1 with
        product_div_depth := s1.product_div_depth + 1 } "div") ys = lrun s1 ys
      rw [wrap_end_step s1 hdiv hcap hdep]
    calc lrun initL (xs ++ wrapPair ++ ys)
        = lrun initL (xs ++ (wrapPair ++ ys)) := by rw [List.append_assoc]
      _ = lrun s1 (wrapPair ++ ys) := by rw [lrun_append, hx]
      _ = lrun s1 ys := key
      _ = lrun initL (xs ++ ys) := by rw [lrun_append, hx]

theorem wrapper_insertion_outside_capture_preserves_run_witness :
    lrun initL ([olStart, itemTag "7"] ++ wrapPair ++ [Event.endTag "div", Event.endTag "ol"]) =
      lrun initL ([olStart, itemTag "7"] ++ [Event.endTag "div", Event.endTag "ol"]) :=
  wrapper_insertion_outside_capture_preserves_run [olStart, itemTag "7"]
    [Event.endTag "div", Event.endTag "ol"] (by decide)

/-- C8 counterexample: inserting a balanced non-matching `div` wrapper
pair between a capture-opening tag and its text makes the wrapper end
tag flush the empty capture, so the name field is lost: the two runs
extract different records, refuting the claim that any such insertion
leaves every field unchanged. -/
theorem wrapper_inside_capture_changes_fields :
    (lrun initL c8baseEvs).map
        (fun st => st.products.map (fun p => pydictGet p "name")) =
      some [some (PValue.str "Widget")] ∧
    (lrun initL c8modEvs).map
        (fun st => st.products.map (fun p => pydictGet p "name")) =
      some [none] := by
  decide

end Maws
